import Mathlib

/-!
Verification development for the talent-match dashboard (src/App.py).

The file shallowly embeds the data-shaping pipeline of the dashboard:

* rate coercion, `df[c].astype(float)` on the three rate columns
  (App.py lines 122-124), modeled by `astypeFloat`;
* the case-insensitive role filter `df[df["out_role"].str.lower() ==
  role_name.lower()]` (line 126) and the empty-result guard (lines 128-130),
  modeled by `roleFilter` and `normalize`;
* the aggregation `df.groupby([...]).agg({'out_final_match_rate': 'mean'})
  .reset_index().sort_values(by='out_final_match_rate', ascending=False)`
  (lines 136-141), modeled by `df_final`;
* the breakdown projections `df_tgv` (line 170) and `df_tv` (lines 185-186);
* the insight extraction `top_person` / `top_tgv` (lines 194-199);
* the surrounding run control flow (benchmark insert warning, empty RPC
  guard), modeled by `runTalentMatch`.

Modeling conventions: Python strings are lists of code points (`Str`),
`str.lower()` is code-point-wise `Char.toLower`; the float rate columns are
modeled over `ℚ`; a raw rate cell is either a parsed number or a malformed
text (`RawRate`), mirroring the fact that `astype(float)` either yields a
float or raises.  `pandas.groupby` is called with its default `sort=True`,
so groups are emitted in ascending lexicographic order of the key tuple.
`sort_values(ascending=False)` reverses an ascending argsort
(pandas.core.sorting.nargsort), and numpy's default quicksort degenerates
to a stable insertion sort on partitions below 16 elements, i.e. on the
small frames this dashboard handles; the descending sorts are therefore
modeled as the reverse of a stable ascending sort.  Every theorem below
except the tie-order ones is independent of this tie-breaking choice.
-/

/-- Python strings, modeled as their sequence of code points. -/

abbrev Str := List Char

/-- Embed a Lean string literal as a `Str`. -/

def str (s : String) : Str := s.data

/-- Model of Python `str.lower()`, applied code point by code point. -/

def strLower (s : Str) : Str := s.map Char.toLower

/-- One raw rate cell as received from the RPC: either a value that
`astype(float)` parses, or a malformed text on which it raises. -/

inductive RawRate where
  | num (q : ℚ)
  | malformed (s : Str)
deriving DecidableEq

/-- True when `astype(float)` would succeed on this cell. -/

def RawRate.isNum : RawRate → Bool
  | .num _ => true
  | .malformed _ => false

/-- Total projection of a raw rate cell; meaningful only under `isNum`.
The pipeline itself never reads this on a malformed cell: `astypeFloat`
aborts first (App.py line 122 raises). -/

def RawRate.val : RawRate → ℚ
  | .num q => q
  | .malformed _ => 0

/-- One raw row of the RPC result frame (App.py line 85), column names as
in the source. -/

structure RawRow where
  out_employee_id : Str
  out_fullname : Str
  out_directorate : Str
  out_role : Str
  out_grade : Str
  out_tgv_name : Str
  out_tv_name : Str
  out_user_score : ℚ
  out_baseline_score : ℚ
  out_tgv_match_rate : RawRate
  out_tv_match_rate : RawRate
  out_final_match_rate : RawRate
deriving DecidableEq

/-- One row after the three rate columns have been coerced to numbers
(App.py lines 122-124). -/

structure MatchRow where
  out_employee_id : Str
  out_fullname : Str
  out_directorate : Str
  out_role : Str
  out_grade : Str
  out_tgv_name : Str
  out_tv_name : Str
  out_user_score : ℚ
  out_baseline_score : ℚ
  out_tgv_match_rate : ℚ
  out_tv_match_rate : ℚ
  out_final_match_rate : ℚ
deriving DecidableEq

/-- Error taxonomy of the run (spec section 7).  `dataIntegrityError` is the
`ValueError` raised by `astype(float)` on line 122-124, caught by the outer
handler on line 210; `noCandidatesError` is the warning-and-stop on lines
128-130; `remoteServiceFailure` is the error-and-stop on lines 81-83. -/

inductive TalentError where
  | dataIntegrityError (detail : Str)
  | noCandidatesError (role_name : Str)
  | remoteServiceFailure
deriving DecidableEq

/-- Model of `df[c].astype(float)` for one rate column (App.py lines
122-124): scans the column in row order and raises on the first cell that
does not parse as a number; no row is dropped and no value is zero-filled. -/

def astypeFloat (get : RawRow → RawRate) : List RawRow → Except TalentError (List ℚ)
  | [] => .ok []
  | r :: rs =>
    match get r with
    | .malformed s => .error (.dataIntegrityError s)
    | .num q =>
      match astypeFloat get rs with
      | .error e => .error e
      | .ok qs => .ok (q :: qs)

/-- Reassemble the frame from the raw rows and the three coerced columns. -/

def zipRates : List RawRow → List ℚ → List ℚ → List ℚ → List MatchRow
  | r :: rs, f :: fs, g :: gs, t :: ts =>
    { out_employee_id := r.out_employee_id
      out_fullname := r.out_fullname
      out_directorate := r.out_directorate
      out_role := r.out_role
      out_grade := r.out_grade
      out_tgv_name := r.out_tgv_name
      out_tv_name := r.out_tv_name
      out_user_score := r.out_user_score
      out_baseline_score := r.out_baseline_score
      out_tgv_match_rate := g
      out_tv_match_rate := t
      out_final_match_rate := f } :: zipRates rs fs gs ts
  | _, _, _, _ => []

/-- The row a fully numeric raw row coerces to. -/

def coerceRaw (r : RawRow) : MatchRow :=
  { out_employee_id := r.out_employee_id
    out_fullname := r.out_fullname
    out_directorate := r.out_directorate
    out_role := r.out_role
    out_grade := r.out_grade
    out_tgv_name := r.out_tgv_name
    out_tv_name := r.out_tv_name
    out_user_score := r.out_user_score
    out_baseline_score := r.out_baseline_score
    out_tgv_match_rate := r.out_tgv_match_rate.val
    out_tv_match_rate := r.out_tv_match_rate.val
    out_final_match_rate := r.out_final_match_rate.val }

/-- All three rate cells of a raw row parse as numbers. -/

def rawAllNum (r : RawRow) : Prop :=
  r.out_final_match_rate.isNum = true
  ∧ r.out_tgv_match_rate.isNum = true
  ∧ r.out_tv_match_rate.isNum = true

instance (r : RawRow) : Decidable (rawAllNum r) := by
  unfold rawAllNum
  infer_instance

/-- Model of the role filter `df[df["out_role"].str.lower() ==
role_name.lower()]` (App.py line 126). -/

def roleFilter (df : List MatchRow) (role_name : Str) : List MatchRow :=
  df.filter (fun r => decide (strLower r.out_role = strLower role_name))

/-- Result Normalizer: coerce the three rate columns (lines 122-124), filter
to the selected role (line 126), and stop when nothing matches (lines
128-130). -/

def normalizeResult (sql_data : List RawRow) (role_name : Str) :
    Except TalentError (List MatchRow) :=
  match astypeFloat (·.out_final_match_rate) sql_data with
  | .error e => .error e
  | .ok finals =>
    match astypeFloat (·.out_tgv_match_rate) sql_data with
    | .error e => .error e
    | .ok tgvs =>
      match astypeFloat (·.out_tv_match_rate) sql_data with
      | .error e => .error e
      | .ok tvs =>
        let df := zipRates sql_data finals tgvs tvs
        let filtered := roleFilter df role_name
        if filtered.isEmpty then .error (.noCandidatesError role_name)
        else .ok filtered

/-- Keep-first deduplication, the semantics of pandas `drop_duplicates()`
with its default `keep='first'`: a row is kept iff it has not appeared
before.  (`seen` accumulates the values already emitted.) -/

def dropDupGo [DecidableEq α] (seen : List α) : List α → List α
  | [] => []
  | x :: xs => if x ∈ seen then dropDupGo seen xs else x :: dropDupGo (x :: seen) xs

/-- Model of `DataFrame.drop_duplicates()` (keep the first occurrence). -/

def drop_duplicates [DecidableEq α] (l : List α) : List α := dropDupGo [] l

/-- The grouping key of lines 136-137: the tuple `(out_employee_id,
out_fullname, out_directorate, out_role, out_grade)`, ordered
lexicographically as pandas orders tuples of Python strings. -/

abbrev GroupKey := Str ×ₗ Str ×ₗ Str ×ₗ Str ×ₗ Str

def keyOf (r : MatchRow) : GroupKey :=
  toLex (r.out_employee_id, toLex (r.out_fullname,
    toLex (r.out_directorate, toLex (r.out_role, r.out_grade))))

/-- One row of the aggregated, ranked frame `df_final` (lines 136-141). -/

structure RankedEmployee where
  out_employee_id : Str
  out_fullname : Str
  out_directorate : Str
  out_role : Str
  out_grade : Str
  out_final_match_rate : ℚ
deriving DecidableEq

def keyOfRanked (e : RankedEmployee) : GroupKey :=
  toLex (e.out_employee_id, toLex (e.out_fullname,
    toLex (e.out_directorate, toLex (e.out_role, e.out_grade))))

/-- The rows of one groupby group: all rows sharing the key tuple. -/

def group_rows (df : List MatchRow) (k : GroupKey) : List MatchRow :=
  df.filter (fun r => decide (keyOf r = k))

def groupSum (df : List MatchRow) (k : GroupKey) : ℚ :=
  ((group_rows df k).map (·.out_final_match_rate)).sum

def groupCount (df : List MatchRow) (k : GroupKey) : ℕ :=
  (group_rows df k).length

/-- The `'mean'` aggregation of line 138: arithmetic mean of
`out_final_match_rate` over the group's rows, duplicates included. -/

def groupMean (df : List MatchRow) (k : GroupKey) : ℚ :=
  groupSum df k / (groupCount df k : ℚ)

/-- The distinct key tuples, in order of first appearance. -/

def distinct_keys (df : List MatchRow) : List GroupKey :=
  drop_duplicates (df.map keyOf)

/-- pandas `groupby(...)` is called with its default `sort=True`, so the
aggregated frame lists the groups in ascending lexicographic order of the
key tuple. -/

def sorted_keys (df : List MatchRow) : List GroupKey :=
  List.insertionSort (· ≤ ·) (distinct_keys df)

/-- The aggregated row of one group after `reset_index()`. -/

def aggRow (df : List MatchRow) (k : GroupKey) : RankedEmployee :=
  { out_employee_id := (ofLex k).1
    out_fullname := (ofLex (ofLex k).2).1
    out_directorate := (ofLex (ofLex (ofLex k).2).2).1
    out_role := (ofLex (ofLex (ofLex (ofLex k).2).2).2).1
    out_grade := (ofLex (ofLex (ofLex (ofLex k).2).2).2).2
    out_final_match_rate := groupMean df k }

/-- Ascending comparison on the aggregated mean, the sort key of line 140. -/

def finalRateLe (a b : RankedEmployee) : Prop :=
  a.out_final_match_rate ≤ b.out_final_match_rate

instance : DecidableRel finalRateLe :=
  fun _ _ => inferInstanceAs (Decidable (_ ≤ _))

instance : IsTotal RankedEmployee finalRateLe :=
  ⟨fun _ _ => le_total _ _⟩

instance : IsTrans RankedEmployee finalRateLe :=
  ⟨fun _ _ _ hab hbc => le_trans hab hbc⟩

/-- Model of `df_final` (App.py lines 136-141): group by the five-column
identity tuple with pandas' default key sort, take the mean of
`out_final_match_rate` per group, and sort descending by that mean.
`sort_values(ascending=False)` reverses an ascending argsort, and numpy's
quicksort is a stable insertion sort on the small frames at hand, hence the
`reverse` of a stable ascending sort. -/

def df_final (df : List MatchRow) : List RankedEmployee :=
  (List.insertionSort finalRateLe ((sorted_keys df).map (aggRow df))).reverse

/-- One row of the TGV breakdown view (App.py line 170): the four-column
projection of the normalized frame. -/

structure TgvRow where
  out_employee_id : Str
  out_fullname : Str
  out_tgv_name : Str
  out_tgv_match_rate : ℚ
deriving DecidableEq

def projTgv (r : MatchRow) : TgvRow :=
  { out_employee_id := r.out_employee_id
    out_fullname := r.out_fullname
    out_tgv_name := r.out_tgv_name
    out_tgv_match_rate := r.out_tgv_match_rate }

/-- Model of `df_tgv` (App.py line 170): project the four TGV columns and
apply `drop_duplicates()`. -/

def df_tgv (df : List MatchRow) : List TgvRow :=
  drop_duplicates (df.map projTgv)

/-- One row of the TV detail view (App.py lines 185-186): the six-column
projection, full detail, no deduplication. -/

structure TvRow where
  out_fullname : Str
  out_tgv_name : Str
  out_tv_name : Str
  out_user_score : ℚ
  out_baseline_score : ℚ
  out_tv_match_rate : ℚ
deriving DecidableEq

def projTv (r : MatchRow) : TvRow :=
  { out_fullname := r.out_fullname
    out_tgv_name := r.out_tgv_name
    out_tv_name := r.out_tv_name
    out_user_score := r.out_user_score
    out_baseline_score := r.out_baseline_score
    out_tv_match_rate := r.out_tv_match_rate }

/-- Model of `df_tv` (App.py lines 185-186). -/

def df_tv (df : List MatchRow) : List TvRow :=
  df.map projTv

/-- Model of `top_person = df_final.iloc[0]` (App.py line 194); `none`
models the `IndexError` that `iloc[0]` raises on an empty frame. -/

def top_person (ranked : List RankedEmployee) : Option RankedEmployee :=
  ranked.head?

/-- Ascending comparison on `out_tgv_match_rate`, the sort key of line 197. -/

def tgvRateLe (a b : MatchRow) : Prop :=
  a.out_tgv_match_rate ≤ b.out_tgv_match_rate

instance : DecidableRel tgvRateLe :=
  fun _ _ => inferInstanceAs (Decidable (_ ≤ _))

instance : IsTotal MatchRow tgvRateLe :=
  ⟨fun _ _ => le_total _ _⟩

instance : IsTrans MatchRow tgvRateLe :=
  ⟨fun _ _ _ hab hbc => le_trans hab hbc⟩

/-- Model of `top_tgv` (App.py lines 195-199):
`df[df['out_fullname'] == top_person['out_fullname']]
   .sort_values('out_tgv_match_rate', ascending=False).iloc[0]`.
Note the filter compares `out_fullname` only, not the employee id.  The
descending sort follows the same reverse-of-stable-ascending model as
`df_final`; `none` models the `IndexError` on an empty selection. -/

def top_tgv (df : List MatchRow) (tp : RankedEmployee) : Option MatchRow :=
  ((List.insertionSort tgvRateLe
    (df.filter (fun r => decide (r.out_fullname = tp.out_fullname)))).reverse).head?

/-- Output surface of one run of the `Run Talent Match` action: which
widgets got rendered and which error, if any, ended the run. -/

structure RunOutput where
  benchmark_warning : Option Str
  final_table : Option (List RankedEmployee)
  tgv_table : Option (List TgvRow)
  tv_table : Option (List TvRow)
  insight_person : Option RankedEmployee
  insight_tgv : Option MatchRow
  run_error : Option TalentError
deriving DecidableEq

/-- Model of the run control flow (App.py lines 61-211): record the
benchmark request and warn on failure (lines 64-73), stop if the RPC
returned no data (lines 81-83), normalize and aggregate (lines 122-141),
render the three tabs (lines 147-187), extract the insight (lines 193-199).
The RPC result and the outcome of the benchmark insert are inputs: both are
produced by external collaborators. -/

def runTalentMatch (insertResult : Except Str Unit) (sql_data : List RawRow)
    (role_name : Str) : RunOutput :=
  let warn : Option Str :=
    match insertResult with
    | .ok _ => none
    | .error e => some (str "⚠️ Unable to insert benchmark record: " ++ e)
  if sql_data.isEmpty then
    { benchmark_warning := warn
      final_table := none
      tgv_table := none
      tv_table := none
      insight_person := none
      insight_tgv := none
      run_error := some .remoteServiceFailure }
  else
    match normalizeResult sql_data role_name with
    | .error e =>
      { benchmark_warning := warn
        final_table := none
        tgv_table := none
        tv_table := none
        insight_person := none
        insight_tgv := none
        run_error := some e }
    | .ok df =>
      { benchmark_warning := warn
        final_table := some (df_final df)
        tgv_table := some (df_tgv df)
        tv_table := some (df_tv df)
        insight_person := top_person (df_final df)
        insight_tgv :=
          match top_person (df_final df) with
          | some tp => top_tgv df tp
          | none => none
        run_error := none }

/-- Sample normalized row: a tied candidate whose key sorts first. -/

def rowTieA : MatchRow :=
  { out_employee_id := str "A101"
    out_fullname := str "Ana"
    out_directorate := str "Tech"
    out_role := str "Data Analyst"
    out_grade := str "G5"
    out_tgv_name := str "Analytics"
    out_tv_name := str "SQL"
    out_user_score := 4
    out_baseline_score := 4
    out_tgv_match_rate := 70
    out_tv_match_rate := 70
    out_final_match_rate := 50 }

/-- Sample normalized row: a tied candidate whose key sorts second. -/

def rowTieB : MatchRow :=
  { out_employee_id := str "B202"
    out_fullname := str "Bob"
    out_directorate := str "Tech"
    out_role := str "Data Analyst"
    out_grade := str "G5"
    out_tgv_name := str "Analytics"
    out_tv_name := str "SQL"
    out_user_score := 4
    out_baseline_score := 4
    out_tgv_match_rate := 70
    out_tv_match_rate := 70
    out_final_match_rate := 50 }

/-- Sample rows for the spec section 8 scenario: employee E1 with final
rates 85 and 95 and employee E2 with final rate 60. -/

def rowE1a : MatchRow :=
  { out_employee_id := str "E1"
    out_fullname := str "Eka"
    out_directorate := str "Tech"
    out_role := str "Data Analyst"
    out_grade := str "G5"
    out_tgv_name := str "Analytics"
    out_tv_name := str "SQL"
    out_user_score := 4
    out_baseline_score := 4
    out_tgv_match_rate := 80
    out_tv_match_rate := 80
    out_final_match_rate := 85 }

def rowE1b : MatchRow :=
  { out_employee_id := str "E1"
    out_fullname := str "Eka"
    out_directorate := str "Tech"
    out_role := str "Data Analyst"
    out_grade := str "G5"
    out_tgv_name := str "Communication"
    out_tv_name := str "Writing"
    out_user_score := 5
    out_baseline_score := 4
    out_tgv_match_rate := 95
    out_tv_match_rate := 95
    out_final_match_rate := 95 }

def rowE2 : MatchRow :=
  { out_employee_id := str "E2"
    out_fullname := str "Edi"
    out_directorate := str "Sales"
    out_role := str "Data Analyst"
    out_grade := str "G4"
    out_tgv_name := str "Analytics"
    out_tv_name := str "SQL"
    out_user_score := 3
    out_baseline_score := 4
    out_tgv_match_rate := 60
    out_tv_match_rate := 60
    out_final_match_rate := 60 }

/-- Sample top-ranked employee for the insight extractor: id E1, full name
John Smith. -/

def topJohnE1 : RankedEmployee :=
  { out_employee_id := str "E1"
    out_fullname := str "John Smith"
    out_directorate := str "Tech"
    out_role := str "Data Analyst"
    out_grade := str "G5"
    out_final_match_rate := 90 }

/-- Sample row belonging to employee E1 (John Smith), TGV rate 80. -/

def rowJohnE1 : MatchRow :=
  { out_employee_id := str "E1"
    out_fullname := str "John Smith"
    out_directorate := str "Tech"
    out_role := str "Data Analyst"
    out_grade := str "G5"
    out_tgv_name := str "Analytics"
    out_tv_name := str "SQL"
    out_user_score := 4
    out_baseline_score := 4
    out_tgv_match_rate := 80
    out_tv_match_rate := 80
    out_final_match_rate := 90 }

/-- Sample row belonging to a different employee E2 who happens to share
the full name John Smith, TGV rate 99. -/

def rowJohnE2 : MatchRow :=
  { out_employee_id := str "E2"
    out_fullname := str "John Smith"
    out_directorate := str "Sales"
    out_role := str "Data Analyst"
    out_grade := str "G4"
    out_tgv_name := str "Negotiation"
    out_tv_name := str "Closing"
    out_user_score := 5
    out_baseline_score := 4
    out_tgv_match_rate := 99
    out_tv_match_rate := 99
    out_final_match_rate := 40 }

/-- Sample raw row whose final rate cell is malformed text. -/

def rawBad : RawRow :=
  { out_employee_id := str "E9"
    out_fullname := str "Nadia"
    out_directorate := str "Tech"
    out_role := str "Data Analyst"
    out_grade := str "G5"
    out_tgv_name := str "Analytics"
    out_tv_name := str "SQL"
    out_user_score := 4
    out_baseline_score := 4
    out_tgv_match_rate := .num 80
    out_tv_match_rate := .num 80
    out_final_match_rate := .malformed (str "N/A") }

/-- Sample raw row, fully numeric, tagged with the role HRBP. -/

def rawHRBP : RawRow :=
  { out_employee_id := str "H1"
    out_fullname := str "Hana"
    out_directorate := str "People"
    out_role := str "HRBP"
    out_grade := str "G6"
    out_tgv_name := str "Coaching"
    out_tv_name := str "Feedback"
    out_user_score := 4
    out_baseline_score := 4
    out_tgv_match_rate := .num 75
    out_tv_match_rate := .num 75
    out_final_match_rate := .num 75 }

/-- Sample raw row, fully numeric, tagged Data Analyst. -/

def rawDA : RawRow :=
  { out_employee_id := str "D1"
    out_fullname := str "Dina"
    out_directorate := str "Tech"
    out_role := str "Data Analyst"
    out_grade := str "G5"
    out_tgv_name := str "Analytics"
    out_tv_name := str "SQL"
    out_user_score := 4
    out_baseline_score := 4
    out_tgv_match_rate := .num 75
    out_tv_match_rate := .num 75
    out_final_match_rate := .num 75 }

theorem astypeFloat_ok_of_isNum (get : RawRow → RawRate) (rows : List RawRow)
    (h : ∀ r ∈ rows, (get r).isNum = true) :
    astypeFloat get rows = .ok (rows.map (fun r => (get r).val)) := by
  induction rows with
  | nil => rfl
  | cons r rs ih =>
    have hr := h r (List.mem_cons_self r rs)
    have hrs := ih (fun x hx => h x (List.mem_cons_of_mem r hx))
    cases hg : get r with
    | malformed s => simp [RawRate.isNum, hg] at hr
    | num q => simp [astypeFloat, hg, hrs, RawRate.val]

theorem astypeFloat_isNum_of_ok (get : RawRow → RawRate) (rows : List RawRow)
    (qs : List ℚ) (h : astypeFloat get rows = .ok qs) :
    ∀ r ∈ rows, (get r).isNum = true := by
  induction rows generalizing qs with
  | nil => intro r hr; cases hr
  | cons x xs ih =>
    intro r hr
    cases hg : get x with
    | malformed s => simp [astypeFloat, hg] at h
    | num q =>
      rcases List.mem_cons.mp hr with rfl | hmem
      · simp [RawRate.isNum, hg]
      · simp only [astypeFloat, hg] at h
        cases hrec : astypeFloat get xs with
        | error e => rw [hrec] at h; cases h
        | ok qs' => exact ih qs' hrec r hmem

theorem astypeFloat_error_shape (get : RawRow → RawRate) (rows : List RawRow)
    (e : TalentError) (h : astypeFloat get rows = .error e) :
    ∃ s, e = .dataIntegrityError s := by
  induction rows generalizing e with
  | nil => cases h
  | cons x xs ih =>
    cases hg : get x with
    | malformed s =>
      simp only [astypeFloat, hg] at h
      injection h with h'
      exact ⟨s, h'.symm⟩
    | num q =>
      simp only [astypeFloat, hg] at h
      cases hrec : astypeFloat get xs with
      | error e2 =>
        rw [hrec] at h
        injection h with h'
        exact h' ▸ ih e2 hrec
      | ok qs => rw [hrec] at h; cases h

theorem zipRates_map (rows : List RawRow) :
    zipRates rows
      (rows.map (fun r => r.out_final_match_rate.val))
      (rows.map (fun r => r.out_tgv_match_rate.val))
      (rows.map (fun r => r.out_tv_match_rate.val))
      = rows.map coerceRaw := by
  induction rows with
  | nil => rfl
  | cons r rs ih => simp [zipRates, coerceRaw, ih]

theorem normalizeResult_of_allNum (sql_data : List RawRow) (role_name : Str)
    (h : ∀ r ∈ sql_data, rawAllNum r) :
    normalizeResult sql_data role_name =
      (if (roleFilter (sql_data.map coerceRaw) role_name).isEmpty
       then Except.error (TalentError.noCandidatesError role_name)
       else Except.ok (roleFilter (sql_data.map coerceRaw) role_name)) := by
  have h1 : astypeFloat (·.out_final_match_rate) sql_data
      = .ok (sql_data.map (fun r => r.out_final_match_rate.val)) :=
    astypeFloat_ok_of_isNum _ _ (fun r hr => (h r hr).1)
  have h2 : astypeFloat (·.out_tgv_match_rate) sql_data
      = .ok (sql_data.map (fun r => r.out_tgv_match_rate.val)) :=
    astypeFloat_ok_of_isNum _ _ (fun r hr => (h r hr).2.1)
  have h3 : astypeFloat (·.out_tv_match_rate) sql_data
      = .ok (sql_data.map (fun r => r.out_tv_match_rate.val)) :=
    astypeFloat_ok_of_isNum _ _ (fun r hr => (h r hr).2.2)
  simp only [normalizeResult, h1, h2, h3, zipRates_map]

theorem mem_dropDupGo [DecidableEq α] (seen l : List α) (x : α) :
    x ∈ dropDupGo seen l ↔ x ∈ l ∧ x ∉ seen := by
  induction l generalizing seen with
  | nil => simp [dropDupGo]
  | cons y ys ih =>
    by_cases hy : y ∈ seen
    · rw [dropDupGo, if_pos hy, ih]
      constructor
      · rintro ⟨hxl, hxs⟩; exact ⟨List.mem_cons_of_mem y hxl, hxs⟩
      · rintro ⟨hxl, hxs⟩
        rcases List.mem_cons.mp hxl with rfl | hmem
        · exact absurd hy hxs
        · exact ⟨hmem, hxs⟩
    · rw [dropDupGo, if_neg hy]
      constructor
      · intro hx
        rcases List.mem_cons.mp hx with rfl | hmem
        · exact ⟨List.mem_cons_self x ys, hy⟩
        · have := (ih (y :: seen)).mp hmem
          exact ⟨List.mem_cons_of_mem y this.1,
            fun hs => this.2 (List.mem_cons_of_mem y hs)⟩
      · rintro ⟨hxl, hxs⟩
        rcases List.mem_cons.mp hxl with rfl | hmem
        · exact List.mem_cons_self x _
        · by_cases hxy : x = y
          · exact hxy ▸ List.mem_cons_self _ _
          · exact List.mem_cons_of_mem y ((ih (y :: seen)).mpr
              ⟨hmem, fun hs => (List.mem_cons.mp hs).elim hxy hxs⟩)

theorem nodup_dropDupGo [DecidableEq α] (seen l : List α) :
    (dropDupGo seen l).Nodup := by
  induction l generalizing seen with
  | nil => exact List.nodup_nil
  | cons y ys ih =>
    by_cases hy : y ∈ seen
    · rw [dropDupGo, if_pos hy]; exact ih seen
    · rw [dropDupGo, if_neg hy]
      refine List.nodup_cons.mpr ⟨?_, ih (y :: seen)⟩
      intro hmem
      exact ((mem_dropDupGo _ _ _).mp hmem).2 (List.mem_cons_self y seen)

theorem dropDupGo_sublist [DecidableEq α] (seen l : List α) :
    (dropDupGo seen l).Sublist l := by
  induction l generalizing seen with
  | nil => exact List.Sublist.refl _
  | cons y ys ih =>
    by_cases hy : y ∈ seen
    · rw [dropDupGo, if_pos hy]; exact (ih seen).cons y
    · rw [dropDupGo, if_neg hy]; exact (ih (y :: seen)).cons₂ y

theorem mem_drop_duplicates [DecidableEq α] (l : List α) (x : α) :
    x ∈ drop_duplicates l ↔ x ∈ l := by
  rw [drop_duplicates, mem_dropDupGo]
  simp

theorem nodup_drop_duplicates [DecidableEq α] (l : List α) :
    (drop_duplicates l).Nodup := nodup_dropDupGo [] l

theorem drop_duplicates_sublist [DecidableEq α] (l : List α) :
    (drop_duplicates l).Sublist l := dropDupGo_sublist [] l

theorem keyOfRanked_aggRow (df : List MatchRow) (k : GroupKey) :
    keyOfRanked (aggRow df k) = k := rfl

theorem df_final_perm (df : List MatchRow) :
    (df_final df).Perm ((sorted_keys df).map (aggRow df)) :=
  (List.reverse_perm _).trans (List.perm_insertionSort _ _)

theorem df_final_keys_perm (df : List MatchRow) :
    ((df_final df).map keyOfRanked).Perm (distinct_keys df) := by
  have h1 : (df_final df).map keyOfRanked
      |>.Perm (((sorted_keys df).map (aggRow df)).map keyOfRanked) :=
    (df_final_perm df).map keyOfRanked
  have h2 : ((sorted_keys df).map (aggRow df)).map keyOfRanked
      = sorted_keys df := by
    rw [List.map_map]
    have : keyOfRanked ∘ aggRow df = id := by
      funext k; exact keyOfRanked_aggRow df k
    rw [this, List.map_id]
  rw [h2] at h1
  exact h1.trans (List.perm_insertionSort _ _)

theorem df_final_mean (df : List MatchRow) :
    ∀ e ∈ df_final df, e.out_final_match_rate = groupMean df (keyOfRanked e) := by
  intro e he
  have : e ∈ (sorted_keys df).map (aggRow df) := (df_final_perm df).mem_iff.mp he
  obtain ⟨k, _, rfl⟩ := List.mem_map.mp this
  rfl

theorem df_final_sorted (df : List MatchRow) :
    (df_final df).Sorted (fun a b => b.out_final_match_rate ≤ a.out_final_match_rate) := by
  have hs : (List.insertionSort finalRateLe ((sorted_keys df).map (aggRow df))).Sorted
      finalRateLe := List.sorted_insertionSort finalRateLe _
  rw [df_final, List.Sorted, List.pairwise_reverse]
  exact hs

/-- Claim C2: for every input row and every selected role name, the
Normalizer keeps the row if and only if the row's role field equals the
selected role under case-insensitive comparison; in particular a row tagged
"Data Analyst" is kept when the selection is "data analyst". -/
theorem claim_C2_role_filter_case_insensitive :
    (∀ (df : List MatchRow) (sel : Str) (r : MatchRow),
        r ∈ roleFilter df sel ↔ (r ∈ df ∧ strLower r.out_role = strLower sel))
    ∧ (∀ r : MatchRow, r.out_role = str "Data Analyst" →
        r ∈ roleFilter [r] (str "data analyst")) := by
  constructor
  · intro df sel r
    simp [roleFilter, List.mem_filter]
  · intro r h
    have hl : strLower r.out_role = strLower (str "data analyst") := by
      rw [h]; decide
    simp [roleFilter, List.mem_filter, hl]

/-- Witness for C2 at a concrete row tagged "Data Analyst" and the
selection "data analyst". -/
theorem claim_C2_witness :
    rowTieA.out_role = str "Data Analyst"
    ∧ rowTieA ∈ roleFilter [rowTieA] (str "data analyst") :=
  ⟨rfl, claim_C2_role_filter_case_insensitive.2 rowTieA rfl⟩

/-- Claim C3: for every input sequence containing at least one row whose
final (or group or item) match rate cannot be parsed as a number, the
Normalizer fails with DataIntegrityError and produces no output; the
malformed row is neither dropped nor zero-filled. -/
theorem claim_C3_malformed_rate_aborts (sql : List RawRow) (ρ : Str)
    (h : ∃ r ∈ sql, r.out_final_match_rate.isNum = false
        ∨ r.out_tgv_match_rate.isNum = false
        ∨ r.out_tv_match_rate.isNum = false) :
    ∃ s, normalizeResult sql ρ = Except.error (TalentError.dataIntegrityError s) := by
  cases h1 : astypeFloat (·.out_final_match_rate) sql with
  | error e =>
    obtain ⟨s, rfl⟩ := astypeFloat_error_shape _ _ _ h1
    exact ⟨s, by simp [normalizeResult, h1]⟩
  | ok finals =>
    have hfin := astypeFloat_isNum_of_ok _ _ _ h1
    cases h2 : astypeFloat (·.out_tgv_match_rate) sql with
    | error e =>
      obtain ⟨s, rfl⟩ := astypeFloat_error_shape _ _ _ h2
      exact ⟨s, by simp [normalizeResult, h1, h2]⟩
    | ok tgvs =>
      have htgv := astypeFloat_isNum_of_ok _ _ _ h2
      cases h3 : astypeFloat (·.out_tv_match_rate) sql with
      | error e =>
        obtain ⟨s, rfl⟩ := astypeFloat_error_shape _ _ _ h3
        exact ⟨s, by simp [normalizeResult, h1, h2, h3]⟩
      | ok tvs =>
        exfalso
        have htv := astypeFloat_isNum_of_ok _ _ _ h3
        obtain ⟨r, hr, hbad⟩ := h
        rcases hbad with hb | hb | hb
        · rw [hfin r hr] at hb; cases hb
        · rw [htgv r hr] at hb; cases hb
        · rw [htv r hr] at hb; cases hb

/-- Witness for C3: an input whose final-rate cell holds the malformed text
"N/A" makes the Normalizer fail with DataIntegrityError. -/
theorem claim_C3_witness :
    (∃ r ∈ [rawDA, rawBad], r.out_final_match_rate.isNum = false
        ∨ r.out_tgv_match_rate.isNum = false
        ∨ r.out_tv_match_rate.isNum = false)
    ∧ ∃ s, normalizeResult [rawDA, rawBad] (str "Data Analyst")
        = Except.error (TalentError.dataIntegrityError s) :=
  ⟨⟨rawBad, by decide⟩,
    claim_C3_malformed_rate_aborts [rawDA, rawBad] (str "Data Analyst")
      ⟨rawBad, by decide⟩⟩

/-- Claim C4: for every nonempty, fully numeric input sequence in which
zero rows match the selected role after filtering, the run stops with
NoCandidatesError and produces no ranked table, no breakdown view and no
insight. -/
theorem claim_C4_no_candidates_aborts (ins : Except Str Unit)
    (sql : List RawRow) (ρ : Str)
    (hne : sql ≠ [])
    (hnum : ∀ r ∈ sql, rawAllNum r)
    (hrole : ∀ r ∈ sql, strLower r.out_role ≠ strLower ρ) :
    (runTalentMatch ins sql ρ).run_error = some (TalentError.noCandidatesError ρ)
    ∧ (runTalentMatch ins sql ρ).final_table = none
    ∧ (runTalentMatch ins sql ρ).tgv_table = none
    ∧ (runTalentMatch ins sql ρ).tv_table = none
    ∧ (runTalentMatch ins sql ρ).insight_person = none
    ∧ (runTalentMatch ins sql ρ).insight_tgv = none := by
  have hfilter : roleFilter (sql.map coerceRaw) ρ = [] := by
    rw [roleFilter, List.filter_eq_nil_iff]
    intro r' hr'
    obtain ⟨r, hr, rfl⟩ := List.mem_map.mp hr'
    simpa using hrole r hr
  have hnorm : normalizeResult sql ρ
      = Except.error (TalentError.noCandidatesError ρ) := by
    rw [normalizeResult_of_allNum sql ρ hnum, hfilter]
    rfl
  obtain ⟨x, xs, rfl⟩ := List.exists_cons_of_ne_nil hne
  simp [runTalentMatch, hnorm]

/-- Witness for C4: one fully numeric HRBP row with the selection
"data analyst". -/
theorem claim_C4_witness :
    ([rawHRBP] ≠ ([] : List RawRow))
    ∧ (∀ r ∈ [rawHRBP], rawAllNum r)
    ∧ (∀ r ∈ [rawHRBP], strLower r.out_role ≠ strLower (str "data analyst"))
    ∧ (runTalentMatch (Except.ok ()) [rawHRBP] (str "data analyst")).run_error
        = some (TalentError.noCandidatesError (str "data analyst"))
    ∧ (runTalentMatch (Except.ok ()) [rawHRBP] (str "data analyst")).final_table
        = none := by
  refine ⟨by simp, by decide, by decide, ?_, ?_⟩
  · exact (claim_C4_no_candidates_aborts (Except.ok ()) [rawHRBP]
      (str "data analyst") (by simp) (by decide) (by decide)).1
  · exact (claim_C4_no_candidates_aborts (Except.ok ()) [rawHRBP]
      (str "data analyst") (by simp) (by decide) (by decide)).2.1

/-- Claim C9: when the benchmark-record persistence write fails, the
failure surfaces as a warning carrying the underlying error detail, and
every downstream output of the run is the same as on a successful write. -/
theorem claim_C9_benchmark_failure_warns_and_continues
    (e : Str) (sql : List RawRow) (ρ : Str) :
    (runTalentMatch (Except.error e) sql ρ).benchmark_warning
        = some (str "⚠️ Unable to insert benchmark record: " ++ e)
    ∧ (runTalentMatch (Except.error e) sql ρ).final_table
        = (runTalentMatch (Except.ok ()) sql ρ).final_table
    ∧ (runTalentMatch (Except.error e) sql ρ).tgv_table
        = (runTalentMatch (Except.ok ()) sql ρ).tgv_table
    ∧ (runTalentMatch (Except.error e) sql ρ).tv_table
        = (runTalentMatch (Except.ok ()) sql ρ).tv_table
    ∧ (runTalentMatch (Except.error e) sql ρ).insight_person
        = (runTalentMatch (Except.ok ()) sql ρ).insight_person
    ∧ (runTalentMatch (Except.error e) sql ρ).insight_tgv
        = (runTalentMatch (Except.ok ()) sql ρ).insight_tgv
    ∧ (runTalentMatch (Except.error e) sql ρ).run_error
        = (runTalentMatch (Except.ok ()) sql ρ).run_error := by
  cases hsql : sql.isEmpty with
  | true => simp [runTalentMatch, hsql]
  | false =>
    cases hnorm : normalizeResult sql ρ with
    | error err => simp [runTalentMatch, hsql, hnorm]
    | ok df => simp [runTalentMatch, hsql, hnorm]

/-- Claim C10: the pipeline is deterministic — identical benchmark-insert
outcome, raw rows and selected role give identical Normalizer results and
identical run outputs. -/
theorem claim_C10_deterministic (i1 i2 : Except Str Unit)
    (d1 d2 : List RawRow) (ρ1 ρ2 : Str)
    (hi : i1 = i2) (hd : d1 = d2) (hρ : ρ1 = ρ2) :
    normalizeResult d1 ρ1 = normalizeResult d2 ρ2
    ∧ runTalentMatch i1 d1 ρ1 = runTalentMatch i2 d2 ρ2 := by
  subst hi; subst hd; subst hρ
  exact ⟨rfl, rfl⟩

/-- Witness for C10 at a concrete run. -/
theorem claim_C10_witness :
    normalizeResult [rawDA] (str "Data Analyst")
      = normalizeResult [rawDA] (str "Data Analyst")
    ∧ runTalentMatch (Except.ok ()) [rawDA] (str "Data Analyst")
      = runTalentMatch (Except.ok ()) [rawDA] (str "Data Analyst") :=
  claim_C10_deterministic (Except.ok ()) (Except.ok ()) [rawDA] [rawDA]
    (str "Data Analyst") (str "Data Analyst") rfl rfl rfl

/-- Claim C1: for every non-empty normalized frame whose rows all carry one
role, the aggregated output has exactly one row per distinct identity
tuple (its projected keys are duplicate-free and cover exactly the keys of
the input), each row carries the arithmetic mean of the final match rate
over its group, and the output is sorted non-increasing by that mean. -/
theorem claim_C1_aggregator_output (df : List MatchRow) (ρ : Str)
    (hne : df ≠ []) (hrole : ∀ r ∈ df, r.out_role = ρ) :
    ((df_final df).map keyOfRanked).Nodup
    ∧ (∀ k : GroupKey, k ∈ (df_final df).map keyOfRanked ↔ k ∈ df.map keyOf)
    ∧ (df_final df).length = (distinct_keys df).length
    ∧ (∀ e ∈ df_final df, e.out_final_match_rate = groupMean df (keyOfRanked e))
    ∧ (df_final df).Sorted
        (fun a b => b.out_final_match_rate ≤ a.out_final_match_rate) := by
  refine ⟨?_, ?_, ?_, df_final_mean df, df_final_sorted df⟩
  · exact (df_final_keys_perm df).nodup_iff.mpr (nodup_drop_duplicates _)
  · intro k
    exact (df_final_keys_perm df).mem_iff.trans (mem_drop_duplicates _ _)
  · have h := (df_final_keys_perm df).length_eq
    rwa [List.length_map] at h

/-- Witness for C1 at the spec section 8 scenario: E1 with final rates 85
and 95, E2 with final rate 60, all Data Analyst rows. -/
theorem claim_C1_witness :
    ([rowE1a, rowE1b, rowE2] ≠ ([] : List MatchRow))
    ∧ (∀ r ∈ [rowE1a, rowE1b, rowE2], r.out_role = str "Data Analyst")
    ∧ (((df_final [rowE1a, rowE1b, rowE2]).map keyOfRanked).Nodup
        ∧ (∀ e ∈ df_final [rowE1a, rowE1b, rowE2],
            e.out_final_match_rate
              = groupMean [rowE1a, rowE1b, rowE2] (keyOfRanked e))
        ∧ (df_final [rowE1a, rowE1b, rowE2]).Sorted
            (fun a b => b.out_final_match_rate ≤ a.out_final_match_rate)) := by
  have h := claim_C1_aggregator_output [rowE1a, rowE1b, rowE2]
    (str "Data Analyst") (by simp) (by decide)
  exact ⟨by simp, by decide, h.1, h.2.2.2.1, h.2.2.2.2⟩

/-- Claim C7: the Aggregator deduplicates nothing before averaging — a
repeated row extends its group by one more occurrence, adds its final rate
to the group sum once more, and shifts the mean accordingly; the aggregated
rows carry exactly these duplicate-weighted means. -/
theorem claim_C7_duplicates_weight_mean (df : List MatchRow) (r : MatchRow)
    (hr : r ∈ df) :
    group_rows (df ++ [r]) (keyOf r) = group_rows df (keyOf r) ++ [r]
    ∧ groupCount (df ++ [r]) (keyOf r) = groupCount df (keyOf r) + 1
    ∧ groupSum (df ++ [r]) (keyOf r)
        = groupSum df (keyOf r) + r.out_final_match_rate
    ∧ groupMean (df ++ [r]) (keyOf r)
        = (groupSum df (keyOf r) + r.out_final_match_rate)
          / ((groupCount df (keyOf r) : ℚ) + 1)
    ∧ (∀ e ∈ df_final (df ++ [r]),
        e.out_final_match_rate = groupMean (df ++ [r]) (keyOfRanked e)) := by
  have hgr : group_rows (df ++ [r]) (keyOf r) = group_rows df (keyOf r) ++ [r] := by
    simp [group_rows, List.filter_append]
  have hcount : groupCount (df ++ [r]) (keyOf r) = groupCount df (keyOf r) + 1 := by
    simp [groupCount, hgr]
  have hsum : groupSum (df ++ [r]) (keyOf r)
      = groupSum df (keyOf r) + r.out_final_match_rate := by
    simp [groupSum, hgr]
  refine ⟨hgr, hcount, hsum, ?_, df_final_mean _⟩
  rw [groupMean, hsum, hcount]
  push_cast
  ring_nf

/-- Witness for C7: appending a literal duplicate of E1's 85-rate row. -/
theorem claim_C7_witness :
    rowE1a ∈ [rowE1a, rowE1b]
    ∧ groupCount ([rowE1a, rowE1b] ++ [rowE1a]) (keyOf rowE1a)
        = groupCount [rowE1a, rowE1b] (keyOf rowE1a) + 1
    ∧ groupSum ([rowE1a, rowE1b] ++ [rowE1a]) (keyOf rowE1a)
        = groupSum [rowE1a, rowE1b] (keyOf rowE1a) + rowE1a.out_final_match_rate := by
  have h := claim_C7_duplicates_weight_mean [rowE1a, rowE1b] rowE1a
    (List.mem_cons_self _ _)
  exact ⟨List.mem_cons_self _ _, h.2.1, h.2.2.1⟩

/-- Claim C8: the group-level view is exactly the four-column projection
deduplicated on the full tuple (duplicate-free, covering exactly the
projected tuples, in first-appearance order as a sublist of the
projection), and the item-level view is exactly the six-column projection
with no deduplication, aggregation or further filtering. -/
theorem claim_C8_breakdown_views (df : List MatchRow) :
    (df_tgv df).Nodup
    ∧ (∀ t : TgvRow, t ∈ df_tgv df ↔ t ∈ df.map projTgv)
    ∧ (df_tgv df).Sublist (df.map projTgv)
    ∧ (df_tv df).length = df.length
    ∧ (∀ (i : ℕ) (h1 : i < df.length) (h2 : i < (df_tv df).length),
        (df_tv df).get ⟨i, h2⟩ = projTv (df.get ⟨i, h1⟩)) := by
  refine ⟨nodup_drop_duplicates _, ?_, drop_duplicates_sublist _, ?_, ?_⟩
  · intro t
    exact mem_drop_duplicates _ _
  · simp [df_tv]
  · intro i h1 h2
    simp [df_tv]

/-- Witness for C8 at a concrete two-row frame with a duplicated TGV
projection. -/
theorem claim_C8_witness :
    (df_tgv [rowE1a, rowE2]).Nodup
    ∧ (df_tgv [rowE1a, rowE2]).Sublist ([rowE1a, rowE2].map projTgv)
    ∧ (df_tv [rowE1a, rowE2]).length = ([rowE1a, rowE2] : List MatchRow).length
    ∧ (0 : ℕ) < ([rowE1a, rowE2] : List MatchRow).length := by
  have h := claim_C8_breakdown_views [rowE1a, rowE2]
  exact ⟨h.1, h.2.2.1, h.2.2.2.1, by simp⟩

theorem pair_sublist_of_sorted {α : Type} [LinearOrder α] {l : List α}
    (hs : l.Sorted (· ≤ ·)) {a b : α} (ha : a ∈ l) (hb : b ∈ l) (hab : a < b) :
    ([a, b] : List α).Sublist l := by
  induction l with
  | nil => cases ha
  | cons x xs ih =>
    rw [List.sorted_cons] at hs
    rcases List.mem_cons.mp ha with rfl | hax
    · rcases List.mem_cons.mp hb with rfl | hbx
      · exact absurd hab (lt_irrefl _)
      · exact (List.singleton_sublist.mpr hbx).cons₂ a
    · rcases List.mem_cons.mp hb with rfl | hbx
      · exact absurd (hs.1 a hax) (not_le.mpr hab)
      · exact (ih hs.2 hax hbx).cons x

theorem sorted_rel_getLast {α : Type} {r : α → α → Prop} (hrefl : ∀ a, r a a)
    {l : List α} (hs : l.Sorted r) :
    ∀ (hne : l ≠ []) (x : α), x ∈ l → r x (l.getLast hne) := by
  have hp : List.Pairwise r l := hs
  clear hs
  induction hp with
  | nil => intro hne; exact absurd rfl hne
  | @cons y ys hy hys ih =>
    intro hne x hx
    cases ys with
    | nil =>
      have hx' : x = y := List.mem_singleton.mp hx
      subst hx'
      exact hrefl x
    | cons z zs =>
      rw [List.getLast_cons (List.cons_ne_nil z zs)]
      rcases List.mem_cons.mp hx with rfl | hmem
      · exact hy _ (List.getLast_mem _)
      · exact ih (List.cons_ne_nil z zs) x hmem

theorem df_final_tie_pair (df : List MatchRow) (k1 k2 : GroupKey)
    (h1 : k1 ∈ df.map keyOf) (h2 : k2 ∈ df.map keyOf) (hlt : k1 < k2)
    (heq : groupMean df k1 = groupMean df k2) :
    ([aggRow df k2, aggRow df k1] : List RankedEmployee).Sublist (df_final df) := by
  have hk1 : k1 ∈ distinct_keys df := (mem_drop_duplicates _ _).mpr h1
  have hk2 : k2 ∈ distinct_keys df := (mem_drop_duplicates _ _).mpr h2
  have hm1 : k1 ∈ sorted_keys df :=
    (List.perm_insertionSort _ _).mem_iff.mpr hk1
  have hm2 : k2 ∈ sorted_keys df :=
    (List.perm_insertionSort _ _).mem_iff.mpr hk2
  have hsorted : (sorted_keys df).Sorted (fun a b => a ≤ b) :=
    List.sorted_insertionSort _ _
  have hpair : ([k1, k2] : List GroupKey).Sublist (sorted_keys df) :=
    pair_sublist_of_sorted hsorted hm1 hm2 hlt
  have hmapped : ([aggRow df k1, aggRow df k2] : List RankedEmployee).Sublist
      ((sorted_keys df).map (aggRow df)) := by
    simpa using hpair.map (aggRow df)
  have hrel : finalRateLe (aggRow df k1) (aggRow df k2) := by
    show groupMean df k1 ≤ groupMean df k2
    rw [heq]
  have hpw : List.Pairwise finalRateLe [aggRow df k1, aggRow df k2] :=
    List.pairwise_pair.mpr hrel
  have hins : ([aggRow df k1, aggRow df k2] : List RankedEmployee).Sublist
      (List.insertionSort finalRateLe ((sorted_keys df).map (aggRow df))) :=
    List.sublist_insertionSort hpw hmapped
  have hrev := List.reverse_sublist.mpr hins
  simpa [df_final] using hrev

/-- Claim C5 counterexample: two candidates with equal mean 50, input order
A101 then B202.  The claim says ties retain the input's first-appearance
order (A101 first); the code emits B202 first, because `groupby` has
already re-ordered the groups by key and the descending sort reverses the
tied pair. -/
theorem claim_C5_counterexample :
    groupMean [rowTieA, rowTieB] (keyOf rowTieA)
      = groupMean [rowTieA, rowTieB] (keyOf rowTieB)
    ∧ (df_final [rowTieA, rowTieB]).map (fun e => e.out_employee_id)
        = [str "B202", str "A101"]
    ∧ (df_final [rowTieA, rowTieB]).map (fun e => e.out_employee_id)
        ≠ [str "A101", str "B202"] := by
  have hgA : group_rows [rowTieA, rowTieB] (keyOf rowTieA) = [rowTieA] := by decide
  have hgB : group_rows [rowTieA, rowTieB] (keyOf rowTieB) = [rowTieB] := by decide
  have hmA : groupMean [rowTieA, rowTieB] (keyOf rowTieA) = 50 := by
    rw [groupMean, groupSum, groupCount, hgA]
    norm_num [rowTieA]
  have hmB : groupMean [rowTieA, rowTieB] (keyOf rowTieB) = 50 := by
    rw [groupMean, groupSum, groupCount, hgB]
    norm_num [rowTieB]
  have heq : groupMean [rowTieA, rowTieB] (keyOf rowTieA)
      = groupMean [rowTieA, rowTieB] (keyOf rowTieB) := by rw [hmA, hmB]
  have hsub := df_final_tie_pair [rowTieA, rowTieB]
    (keyOf rowTieA) (keyOf rowTieB) (by decide) (by decide) (by decide) heq
  have hlen : (df_final [rowTieA, rowTieB]).length = 2 := by
    have hp := (df_final_keys_perm [rowTieA, rowTieB]).length_eq
    rw [List.length_map] at hp
    rw [hp]
    decide
  have hdf : df_final [rowTieA, rowTieB]
      = [aggRow [rowTieA, rowTieB] (keyOf rowTieB),
         aggRow [rowTieA, rowTieB] (keyOf rowTieA)] :=
    (hsub.eq_of_length (by rw [hlen]; rfl)).symm
  refine ⟨heq, ?_, ?_⟩
  · rw [hdf]; rfl
  · rw [hdf]; decide

/-- Claim C5 as amended: whenever two employee groups have exactly equal
mean final match rate, the Aggregator's output lists them in descending
lexicographic order of their identity tuples — the grouping step has
already re-ordered the groups by ascending key and the descending
value sort reverses tied entries — not in the input's first-appearance
order. -/
theorem claim_C5_amended_tie_order (df : List MatchRow) (k1 k2 : GroupKey)
    (h1 : k1 ∈ df.map keyOf) (h2 : k2 ∈ df.map keyOf) (hlt : k1 < k2)
    (heq : groupMean df k1 = groupMean df k2) :
    ([aggRow df k2, aggRow df k1] : List RankedEmployee).Sublist (df_final df) :=
  df_final_tie_pair df k1 k2 h1 h2 hlt heq

/-- Witness for the amended C5 at the concrete tied pair. -/
theorem claim_C5_witness :
    keyOf rowTieA ∈ ([rowTieA, rowTieB] : List MatchRow).map keyOf
    ∧ keyOf rowTieB ∈ ([rowTieA, rowTieB] : List MatchRow).map keyOf
    ∧ keyOf rowTieA < keyOf rowTieB
    ∧ ([aggRow [rowTieA, rowTieB] (keyOf rowTieB),
        aggRow [rowTieA, rowTieB] (keyOf rowTieA)] : List RankedEmployee).Sublist
        (df_final [rowTieA, rowTieB]) := by
  have hgA : group_rows [rowTieA, rowTieB] (keyOf rowTieA) = [rowTieA] := by decide
  have hgB : group_rows [rowTieA, rowTieB] (keyOf rowTieB) = [rowTieB] := by decide
  have hmA : groupMean [rowTieA, rowTieB] (keyOf rowTieA) = 50 := by
    rw [groupMean, groupSum, groupCount, hgA]
    norm_num [rowTieA]
  have hmB : groupMean [rowTieA, rowTieB] (keyOf rowTieB) = 50 := by
    rw [groupMean, groupSum, groupCount, hgB]
    norm_num [rowTieB]
  exact ⟨by decide, by decide, by decide,
    claim_C5_amended_tie_order [rowTieA, rowTieB] (keyOf rowTieA) (keyOf rowTieB)
      (by decide) (by decide) (by decide) (by rw [hmA, hmB])⟩

/-- Claim C6 counterexample: the top-ranked employee is E1 (John Smith),
but the frame also holds a row of a different employee E2 with the same
full name and a higher TGV rate; the extractor, which filters by full name
only, returns E2's row — a row that does not belong to the top employee. -/
theorem claim_C6_counterexample :
    top_person [topJohnE1] = some topJohnE1
    ∧ top_tgv [rowJohnE1, rowJohnE2] topJohnE1 = some rowJohnE2
    ∧ rowJohnE2.out_employee_id ≠ topJohnE1.out_employee_id := by
  refine ⟨rfl, ?_, by decide⟩
  decide

/-- Claim C6 as amended: given a non-empty ranking headed by X and a
normalized frame holding at least one row whose full name equals X's, the
Insight Extractor returns X's summary together with a row of the frame
whose full name equals X's full name (not necessarily X's own row, since
the filter compares full names only) and whose TGV match rate is maximal
among all rows carrying that full name; ties go to the first row after the
descending sort. -/
theorem claim_C6_amended_insight (ranked : List RankedEmployee)
    (X : RankedEmployee) (df : List MatchRow)
    (htop : ranked.head? = some X)
    (hne : df.filter (fun r => decide (r.out_fullname = X.out_fullname)) ≠ []) :
    top_person ranked = some X
    ∧ ∃ r, top_tgv df X = some r
        ∧ r ∈ df
        ∧ r.out_fullname = X.out_fullname
        ∧ ∀ r' ∈ df, r'.out_fullname = X.out_fullname →
            r'.out_tgv_match_rate ≤ r.out_tgv_match_rate := by
  refine ⟨htop, ?_⟩
  have hSF : (List.insertionSort tgvRateLe
      (df.filter (fun r => decide (r.out_fullname = X.out_fullname)))).Perm
      (df.filter (fun r => decide (r.out_fullname = X.out_fullname))) :=
    List.perm_insertionSort _ _
  have hSne : List.insertionSort tgvRateLe
      (df.filter (fun r => decide (r.out_fullname = X.out_fullname))) ≠ [] := by
    intro h0
    apply hne
    have hl := hSF.length_eq
    rw [h0] at hl
    exact List.length_eq_zero.mp hl.symm
  refine ⟨(List.insertionSort tgvRateLe
      (df.filter (fun r => decide (r.out_fullname = X.out_fullname)))).getLast hSne,
    ?_, ?_, ?_, ?_⟩
  · show (List.insertionSort tgvRateLe
        (df.filter (fun r => decide (r.out_fullname = X.out_fullname)))).reverse.head?
        = _
    rw [List.head?_reverse, List.getLast?_eq_getLast _ hSne]
  · have hmem := hSF.mem_iff.mp (List.getLast_mem hSne)
    exact (List.mem_filter.mp hmem).1
  · have hmem := hSF.mem_iff.mp (List.getLast_mem hSne)
    exact of_decide_eq_true (List.mem_filter.mp hmem).2
  · intro r' hr' hname
    have hr'F : r' ∈ df.filter (fun r => decide (r.out_fullname = X.out_fullname)) :=
      List.mem_filter.mpr ⟨hr', decide_eq_true hname⟩
    have hr'S := hSF.mem_iff.mpr hr'F
    have hrefl : ∀ a : MatchRow, tgvRateLe a a :=
      fun a => le_refl a.out_tgv_match_rate
    exact sorted_rel_getLast hrefl
      (List.sorted_insertionSort tgvRateLe _) hSne r' hr'S

/-- Witness for the amended C6 at the concrete duplicate-name frame. -/
theorem claim_C6_witness :
    ([topJohnE1].head? = some topJohnE1)
    ∧ ([rowJohnE1, rowJohnE2].filter
        (fun r => decide (r.out_fullname = topJohnE1.out_fullname)) ≠ [])
    ∧ (top_person [topJohnE1] = some topJohnE1
        ∧ ∃ r, top_tgv [rowJohnE1, rowJohnE2] topJohnE1 = some r
            ∧ r ∈ [rowJohnE1, rowJohnE2]
            ∧ r.out_fullname = topJohnE1.out_fullname
            ∧ ∀ r' ∈ [rowJohnE1, rowJohnE2],
                r'.out_fullname = topJohnE1.out_fullname →
                r'.out_tgv_match_rate ≤ r.out_tgv_match_rate) :=
  ⟨rfl, by decide,
    claim_C6_amended_insight [topJohnE1] topJohnE1 [rowJohnE1, rowJohnE2]
      rfl (by decide)⟩
